import Mathlib

set_option autoImplicit false
set_option maxRecDepth 8192

namespace Snifff

/-!
Shallow embedding of the snifff capture/enrichment core
(src/src-tauri/src/sniffer.rs, lib.rs, db.rs, geolocator.rs).

Machine integers are modelled as Nat octets; fallible operations return
Except/Option; the stateful pieces (dedup set, running flag, database,
lookup cache) are explicit state passed through pure step functions.
-/

/-- An IPv4 address as its four octets (sniffer.rs works on std Ipv4Addr). -/
structure Ipv4Addr where
  o0 : Nat
  o1 : Nat
  o2 : Nat
  o3 : Nat
deriving DecidableEq, Repr

/-- A network-layer address: IPv4, or IPv6 given by its 16 octets. -/
inductive IpAddr where
  | v4 (addr : Ipv4Addr)
  | v6 (octets : List Nat)
deriving DecidableEq, Repr

/-- Documented semantics of std Ipv4Addr.is_private: 10.0.0.0/8,
172.16.0.0/12, 192.168.0.0/16. -/
def Ipv4Addr.is_private (ip : Ipv4Addr) : Bool :=
  ip.o0 == 10
    || (ip.o0 == 172 && decide (16 ≤ ip.o1) && decide (ip.o1 ≤ 31))
    || (ip.o0 == 192 && ip.o1 == 168)

/-- Documented semantics of std Ipv4Addr.is_loopback: 127.0.0.0/8. -/
def Ipv4Addr.is_loopback (ip : Ipv4Addr) : Bool :=
  ip.o0 == 127

/-- Documented semantics of std Ipv4Addr.is_link_local: 169.254.0.0/16. -/
def Ipv4Addr.is_link_local (ip : Ipv4Addr) : Bool :=
  ip.o0 == 169 && ip.o1 == 254

/-- Documented semantics of std Ipv4Addr.is_broadcast: 255.255.255.255. -/
def Ipv4Addr.is_broadcast (ip : Ipv4Addr) : Bool :=
  ip.o0 == 255 && ip.o1 == 255 && ip.o2 == 255 && ip.o3 == 255

/-- Documented semantics of std Ipv4Addr.is_unspecified: 0.0.0.0. -/
def Ipv4Addr.is_unspecified (ip : Ipv4Addr) : Bool :=
  ip.o0 == 0 && ip.o1 == 0 && ip.o2 == 0 && ip.o3 == 0

/-- Documented semantics of std Ipv4Addr.is_multicast: 224.0.0.0/4. -/
def Ipv4Addr.is_multicast (ip : Ipv4Addr) : Bool :=
  decide (224 ≤ ip.o0) && decide (ip.o0 ≤ 239)

/-- Documented semantics of std Ipv6Addr.is_loopback: the address ::1. -/
def ipv6IsLoopback (o : List Nat) : Bool :=
  o == [0, 0, 0, 0, 0, 0, 0, 0, 0, 0, 0, 0, 0, 0, 0, 1]

/-- Documented semantics of std Ipv6Addr.is_unspecified: the address ::. -/
def ipv6IsUnspecified (o : List Nat) : Bool :=
  o == [0, 0, 0, 0, 0, 0, 0, 0, 0, 0, 0, 0, 0, 0, 0, 0]

/-- Documented semantics of std Ipv6Addr.is_multicast: ff00::/8,
i.e. the first octet is 0xFF. -/
def ipv6IsMulticast (o : List Nat) : Bool :=
  o.getD 0 0 == 255

/-- sniffer.rs is_public_ip (lines 9-27): filter out private/local/reserved
addresses. The CGNAT test is the source expression
octets [0] == 100 && (octets [1] & 0xC0) == 64. -/
def is_public_ip : IpAddr → Bool
  | .v4 v4 =>
      !v4.is_private
        && !v4.is_loopback
        && !v4.is_link_local
        && !v4.is_broadcast
        && !v4.is_unspecified
        && !v4.is_multicast
        && !(v4.o0 == 100 && (Nat.land v4.o1 0xC0 == 64))
  | .v6 o =>
      !ipv6IsLoopback o
        && !ipv6IsUnspecified o
        && !ipv6IsMulticast o

/-- The excluded IPv4 ranges exactly as the spec lists them (private,
loopback, link-local, broadcast, unspecified, multicast, CGNAT
100.64.0.0/10, i.e. second octet between 64 and 127). This is the
spec-side definition for the refinement claim about the classifier. -/
def specExcludedV4 (ip : Ipv4Addr) : Bool :=
  ip.is_private
    || ip.is_loopback
    || ip.is_link_local
    || ip.is_broadcast
    || ip.is_unspecified
    || ip.is_multicast
    || (ip.o0 == 100 && (decide (64 ≤ ip.o1) && decide (ip.o1 ≤ 127)))

/-- The excluded IPv6 ranges as the spec lists them: loopback,
unspecified, multicast. -/
def specExcludedV6 (o : List Nat) : Bool :=
  ipv6IsLoopback o || ipv6IsUnspecified o || ipv6IsMulticast o

/-!  Frame decoding (sniffer.rs extract_dest_ip, lines 142-157).  -/

/-- Modelled from the spec: the etherparse dependency is not part of the
repository; this follows the spec contract for slicing an IPv4 packet at
header level (version nibble 4, header length at least 5 words and fully
contained in the data; the destination address occupies bytes 16-19). -/
def parseIpv4Dest (b : List Nat) : Option Ipv4Addr :=
  let vihl := b.getD 0 0
  if vihl / 16 = 4 ∧ 5 ≤ vihl % 16 ∧ (vihl % 16) * 4 ≤ b.length then
    some ⟨b.getD 16 0, b.getD 17 0, b.getD 18 0, b.getD 19 0⟩
  else none

/-- Modelled from the spec: IPv6 slicing at header level (version nibble 6,
the fixed 40-byte header present; the destination occupies bytes 24-39). -/
def parseIpv6Dest (b : List Nat) : Option (List Nat) :=
  if b.getD 0 0 / 16 = 6 ∧ 40 ≤ b.length then
    some ((b.drop 24).take 16)
  else none

/-- sniffer.rs extract_dest_ip: slice the bytes as an Ethernet II frame
(14-byte header, ethertype at bytes 12-13; 0x0800 selects IPv4 and 0x86DD
selects IPv6) and return the destination network-layer address; every other
or malformed input yields none. Total by construction, so parse failure can
never raise. -/
def extract_dest_ip (data : List Nat) : Option IpAddr :=
  if 14 ≤ data.length then
    let et := data.getD 12 0 * 256 + data.getD 13 0
    if et = 0x0800 then (parseIpv4Dest (data.drop 14)).map IpAddr.v4
    else if et = 0x86DD then (parseIpv6Dest (data.drop 14)).map IpAddr.v6
    else none
  else none

/-- Build an Ethernet II frame: 12 zero MAC bytes, the ethertype big-endian,
then the payload. -/
def mkEthFrame (etherType : Nat) (payload : List Nat) : List Nat :=
  [0, 0, 0, 0, 0, 0, 0, 0, 0, 0, 0, 0] ++ [etherType / 256, etherType % 256] ++ payload

/-- A minimal 20-byte IPv4 header (version 4, ihl 5) with the given
protocol, source and destination. -/
def mkIpv4Header (proto : Nat) (src dst : Ipv4Addr) : List Nat :=
  [0x45, 0, 0, 40, 0, 0, 0, 0, 64, proto, 0, 0,
   src.o0, src.o1, src.o2, src.o3, dst.o0, dst.o1, dst.o2, dst.o3]

/-- A 40-byte IPv6 header (version 6) with the given next-header value and
16-octet source and destination. -/
def mkIpv6Header (nextHeader : Nat) (src dst : List Nat) : List Nat :=
  [0x60, 0, 0, 0, 0, 0, nextHeader, 64] ++ src ++ dst

/-!  Session dedup (sniffer.rs seen_ips HashSet and reset_seen).  -/

/-- HashSet.insert on the session set: returns whether the address string
was newly inserted, together with the updated set. -/
def observe (seen : List String) (a : String) : Bool × List String :=
  if a ∈ seen then (false, seen) else (true, a :: seen)

/-- The operations performed on the session set during one process run:
an observe from the capture loop, or a reset from reset_seen. -/
inductive DedupOp where
  | observe (a : String)
  | reset
deriving DecidableEq, Repr

/-- One dedup operation applied to the session set (reset_seen clears it). -/
def dedupStep (seen : List String) : DedupOp → List String
  | .observe a => (observe seen a).2
  | .reset => []

/-- The session set after a sequence of operations, starting fresh. -/
def seenAfter (ops : List DedupOp) : List String :=
  ops.foldl dedupStep []

/-- Spec-side bookkeeping: the addresses named by observe operations since
the last reset (or since session start when no reset occurred). -/
def specStep (seen : List String) : DedupOp → List String
  | .observe a => a :: seen
  | .reset => []

/-- Spec-side: all addresses observed since the last reset. -/
def observedSinceReset (ops : List DedupOp) : List String :=
  ops.foldl specStep []

/-!  Rendering (Rust calls ip.to_string() to key the dedup set).  -/

/-- Dotted-decimal rendering of an IPv4 address, as Rust Display does. -/
def ipv4Render (ip : Ipv4Addr) : String :=
  toString ip.o0 ++ "." ++ toString ip.o1 ++ "." ++ toString ip.o2 ++ "." ++ toString ip.o3

/-- Rendering of an IPv6 address from its octets. Rust Display groups the
octets into hex segments and compresses zero runs; no claim depends on the
concrete IPv6 string form (the dedup set only needs a string key), so this
model joins the decimal octets instead. -/
def ipv6Render (o : List Nat) : String :=
  String.intercalate ":" (o.map toString)

/-- The string key used by the capture loop for the dedup set. -/
def ipToString : IpAddr → String
  | .v4 a => ipv4Render a
  | .v6 o => ipv6Render o

/-!  Capture loop and start/stop state machine (sniffer.rs Sniffer).  -/

/-- One loop iteration on a successfully pulled frame: decode, classify,
dedup, and report the newly seen address (if any) for the callback. -/
def captureStep (seen : List String) (data : List Nat) : List String × Option String :=
  match extract_dest_ip data with
  | some ip =>
      if is_public_ip ip then
        let r := observe seen (ipToString ip)
        (r.2, if r.1 then some (ipToString ip) else none)
      else (seen, none)
  | none => (seen, none)

/-- The capture loop over the frames pulled during a session, returning the
final session set and the addresses handed to the callback, in order.
Timeouts are no-ops in the source and need no event here. -/
def captureLoop (seen : List String) (packets : List (List Nat)) : List String × List String :=
  packets.foldl
    (fun acc data =>
      let r := captureStep acc.1 data
      (r.1, acc.2 ++ r.2.toList))
    (seen, [])

/-- The Sniffer state: the shared running flag and the session dedup set. -/
structure SnifferState where
  running : Bool
  seen_ips : List String
deriving DecidableEq, Repr

/-- The two ways Sniffer.start can fail. -/
inductive StartError where
  | alreadyRunning
  | deviceUnavailable
deriving DecidableEq, Repr

/-- Sniffer.start (sniffer.rs lines 60-121) together with the spawned
capture thread run over the given frames. The already-running check comes
first; a device open failure aborts before the flag is set. The BPF filter
is applied inside the spawned thread: on failure the source only logs the
error and the loop proceeds, so filterOk has no effect on the result. -/
def startSession (st : SnifferState) (openOk : Bool) (filterOk : Bool)
    (packets : List (List Nat)) :
    Except StartError Unit × SnifferState × List String :=
  if st.running then (.error .alreadyRunning, st, [])
  else if openOk = false then (.error .deviceUnavailable, st, [])
  else
    let r := captureLoop st.seen_ips packets
    (.ok (), { running := true, seen_ips := r.1 }, r.2)

/-- Sniffer.stop: clear the running flag. -/
def SnifferState.stop (st : SnifferState) : SnifferState :=
  { st with running := false }

/-- Sniffer.is_running: read the running flag. -/
def is_running (st : SnifferState) : Bool :=
  st.running

/-- Sniffer.reset_seen: clear the session dedup set. -/
def SnifferState.reset_seen (st : SnifferState) : SnifferState :=
  { st with seen_ips := [] }

/-!  Persistence (db.rs).  The connections table keyed by ip is modelled as
an association list; Database methods become pure functions on it.  -/

/-- One row of the connections table (db.rs IpConnection / schema). -/
structure DbRecord where
  asn : Option String
  as_name : Option String
  as_domain : Option String
  country_code : Option String
  country : Option String
  continent_code : Option String
  continent : Option String
  hit_count : Nat
  first_seen : String
  last_seen : String
deriving DecidableEq, Repr

/-- The connections table: at most one record per address string. -/
def Db := List (String × DbRecord)

/-- Find the row with the given key, as a SQL point query on the
primary key does. -/
def assocFind {α : Type} : List (String × α) → String → Option α
  | [], _ => none
  | (k, v) :: rest, key => if k = key then some v else assocFind rest key

/-- The row inserted for a first-seen address (db.rs upsert INSERT arm):
count 1, both timestamps now, no enrichment fields. -/
def freshRecord (now : String) : DbRecord :=
  { asn := none, as_name := none, as_domain := none, country_code := none,
    country := none, continent_code := none, continent := none,
    hit_count := 1, first_seen := now, last_seen := now }

/-- db.rs upsert_connection: INSERT .. ON CONFLICT (ip) DO UPDATE SET
hit_count = hit_count + 1, last_seen = now. -/
def upsert_connection : Db → String → String → Db
  | [], ip, now => [(ip, freshRecord now)]
  | (k, r) :: rest, ip, now =>
      if k = ip then
        (k, { r with hit_count := r.hit_count + 1, last_seen := now }) :: rest
      else (k, r) :: upsert_connection rest ip now

/-- db.rs update_geo_info: UPDATE connections SET the seven enrichment
columns WHERE ip matches; unconditional overwrite, no-op when the row is
absent. -/
def update_geo_info : Db → String → Option String → Option String → Option String →
    Option String → Option String → Option String → Option String → Db
  | [], _, _, _, _, _, _, _, _ => []
  | (k, r) :: rest, ip, asn, as_name, as_domain, country_code, country,
      continent_code, continent =>
      if k = ip then
        (k, { r with
              asn := asn,
              as_name := as_name,
              as_domain := as_domain,
              country_code := country_code,
              country := country,
              continent_code := continent_code,
              continent := continent }) :: rest
      else
        (k, r) :: update_geo_info rest ip asn as_name as_domain country_code country
          continent_code continent

/-- db.rs has_geo_info: COUNT rows WHERE ip matches AND country_code IS NOT
NULL AND country_code is not the empty string; true when that count is
positive. -/
def has_geo_info (db : Db) (ip : String) : Bool :=
  match assocFind db ip with
  | some r =>
      match r.country_code with
      | some cc => !(cc == "")
      | none => false
  | none => false

/-!  Geolocator (geolocator.rs).  -/

/-- geolocator.rs IpInfoResponse: every field of the parsed lookup
response is optional. -/
structure IpInfoResponse where
  ip : Option String
  asn : Option String
  as_name : Option String
  as_domain : Option String
  country_code : Option String
  country : Option String
  continent_code : Option String
  continent : Option String
deriving DecidableEq, Repr

/-- The Geolocator state: the configured token and the in-memory cache. -/
structure GeoState where
  token : String
  cache : List (String × IpInfoResponse)
deriving DecidableEq, Repr

/-- What the network can return for one request: a parsed success, a
transport error, a non-success HTTP status, or an unparseable body. -/
inductive RemoteOutcome where
  | ok (info : IpInfoResponse)
  | transportError (msg : String)
  | httpError (status : Nat) (body : String)
  | parseError (msg : String)

/-- geolocator.rs Geolocator.lookup: consult the cache first; with no
usable token fail NotConfigured; otherwise perform the remote request
(remote abstracts the network), cache a parsed success, and return it.
The third component records whether a remote request was performed. -/
def lookup (st : GeoState) (remote : String → RemoteOutcome) (ip : String) :
    Except String IpInfoResponse × GeoState × Bool :=
  match assocFind st.cache ip with
  | some cached => (.ok cached, st, false)
  | none =>
      if st.token = "" ∨ st.token = "your_token_here" then
        (.error "IPINFO_TOKEN not configured", st, false)
      else
        match remote ip with
        | .ok info => (.ok info, { st with cache := (ip, info) :: st.cache }, true)
        | .transportError m => (.error ("Request failed: " ++ m), st, true)
        | .httpError s b =>
            (.error ("API returned status: " ++ toString s ++ " - " ++ b), st, true)
        | .parseError m => (.error ("Failed to parse response: " ++ m), st, true)

/-!  The per-address pipeline (lib.rs start_sniffing, lines 73-144): the
capture callback plus the spawned enrichment task, instrumented with the
externally visible events it produces.  -/

/-- The externally visible actions of the pipeline for one address: the
upsert call issued to the store, a remote geo lookup, and the new-ip
event emitted to the frontend (with the NewIpEvent payload fields). -/
inductive Ev where
  | upsertCall (ip : String)
  | remoteLookup (ip : String)
  | emitNewIp (ip : String) (country_code country asn as_name : Option String)
deriving DecidableEq, Repr

/-- The spawned enrichment task (lib.rs lines 88-143), run to completion:
skip everything when has_geo_info already holds; otherwise perform the
lookup (its outcome abstracted as lookupResult), write the enrichment
fields on success, and emit the new-ip event either with the resolved
fields or all-empty on lookup failure. -/
def enrichmentTask (db : Db) (ip : String) (lookupResult : Except String IpInfoResponse) :
    Db × List Ev :=
  if has_geo_info db ip then (db, [])
  else
    match lookupResult with
    | .ok info =>
        (update_geo_info db ip info.asn info.as_name info.as_domain info.country_code
            info.country info.continent_code info.continent,
          [.remoteLookup ip,
           .emitNewIp ip info.country_code info.country info.asn info.as_name])
    | .error _ =>
        (db, [.remoteLookup ip, .emitNewIp ip none none none none])

/-- The capture callback for one newly-seen address (lib.rs lines 73-144):
issue the upsert (upsertOk abstracts a store failure, on which the source
logs and returns before spawning the task), then run the enrichment task. -/
def onNewIp (db : Db) (ip now : String) (upsertOk : Bool)
    (lookupResult : Except String IpInfoResponse) : Db × List Ev :=
  if upsertOk then
    let db1 := upsert_connection db ip now
    let r := enrichmentTask db1 ip lookupResult
    (r.1, Ev.upsertCall ip :: r.2)
  else (db, [Ev.upsertCall ip])

/-- How many upsert calls for the given address an event list records. -/
def countUpserts (evs : List Ev) (ip : String) : Nat :=
  (evs.filter fun e =>
    match e with
    | .upsertCall j => j == ip
    | _ => false).length

/-- How many remote geo lookups for the given address an event list
records. -/
def countRemoteLookups (evs : List Ev) (ip : String) : Nat :=
  (evs.filter fun e =>
    match e with
    | .remoteLookup j => j == ip
    | _ => false).length

/-- How many new-ip events for the given address an event list records. -/
def countEmits (evs : List Ev) (ip : String) : Nat :=
  (evs.filter fun e =>
    match e with
    | .emitNewIp j _ _ _ _ => j == ip
    | _ => false).length

/-- The seven enrichment columns of the row for an address, when present. -/
def geoFields (db : Db) (ip : String) :
    Option (Option String × Option String × Option String × Option String ×
      Option String × Option String × Option String) :=
  (assocFind db ip).map fun r =>
    (r.asn, r.as_name, r.as_domain, r.country_code, r.country,
      r.continent_code, r.continent)

/-!  Concrete values used by counterexamples and witnesses.  -/

/-- A response with every field absent. -/
def emptyInfo : IpInfoResponse :=
  { ip := none, asn := none, as_name := none, as_domain := none,
    country_code := none, country := none, continent_code := none,
    continent := none }

/-- A fully resolved response for 8.8.8.8. -/
def usInfo : IpInfoResponse :=
  { ip := some "8.8.8.8", asn := some "AS15169", as_name := some "Google LLC",
    as_domain := some "google.com", country_code := some "US",
    country := some "United States", continent_code := some "NA",
    continent := some "North America" }

/-- A row whose enrichment is complete (country code populated). -/
def enrichedRecord : DbRecord :=
  { freshRecord "t0" with
    asn := some "AS15169",
    country_code := some "US",
    country := some "United States" }

/-- A row with an AS number populated but no country code, as a lookup
that resolved only ownership data leaves behind. -/
def asnOnlyRecord : DbRecord :=
  { freshRecord "t0" with asn := some "AS13335" }

/-- An Ethernet frame carrying an IPv4 packet to 8.8.8.8. -/
def exFrameTo8888 : List Nat :=
  mkEthFrame 0x0800 (mkIpv4Header 6 ⟨1, 2, 3, 4⟩ ⟨8, 8, 8, 8⟩)

/-!  Theorems.  -/

/-- The source CGNAT test (second octet AND 0xC0 equals 64) picks out the
second-octet range 64..127 on byte values. -/
theorem land192_eq (b : Nat) (hb : b ≤ 255) :
    (Nat.land b 192 == 64) = (decide (64 ≤ b) && decide (b ≤ 127)) := by
  have h : ∀ x : Fin 256,
      (Nat.land x.val 192 == 64) = (decide (64 ≤ x.val) && decide (x.val ≤ 127)) := by
    decide
  exact h ⟨b, Nat.lt_succ_of_le hb⟩

/-- C4: the address classifier is a pure predicate that returns false for
every IPv4 address in the private, loopback, link-local, broadcast,
unspecified, multicast and CGNAT 100.64.0.0/10 ranges, false for every
IPv6 loopback, unspecified or multicast address, and true for any other
address, e.g. 8.8.8.8. -/
theorem is_public_ip_matches_spec_ranges :
    (∀ ip : Ipv4Addr, ip.o1 ≤ 255 →
        is_public_ip (.v4 ip) = !specExcludedV4 ip) ∧
    (∀ o : List Nat, is_public_ip (.v6 o) = !specExcludedV6 o) ∧
    is_public_ip (.v4 ⟨8, 8, 8, 8⟩) = true := by
  refine ⟨fun ip hb => ?_, fun o => ?_, by decide⟩
  · simp only [is_public_ip, specExcludedV4, Bool.not_or, land192_eq ip.o1 hb]
  · simp only [is_public_ip, specExcludedV6, Bool.not_or]

/-- Witness for C4 at the concrete address 8.8.8.8. -/
theorem is_public_ip_matches_spec_ranges_witness :
    is_public_ip (.v4 ⟨8, 8, 8, 8⟩) = !specExcludedV4 ⟨8, 8, 8, 8⟩ ∧
    is_public_ip (.v4 ⟨8, 8, 8, 8⟩) = true :=
  ⟨is_public_ip_matches_spec_ranges.1 ⟨8, 8, 8, 8⟩ (by decide),
   is_public_ip_matches_spec_ranges.2.2⟩

/-- An observe call reports a new address exactly when the session set does
not contain it. -/
theorem observe_fst_eq (s : List String) (a : String) :
    (observe s a).1 = true ↔ a ∉ s := by
  by_cases ha : a ∈ s <;> simp [observe, ha]

/-- The session set and the spec-side record of observations since the last
reset have the same members, whatever sets they start from, as long as
those agree. -/
theorem mem_foldl_dedup_spec (ops : List DedupOp) :
    ∀ s t : List String, (∀ x, x ∈ s ↔ x ∈ t) →
      ∀ x, x ∈ List.foldl dedupStep s ops ↔ x ∈ List.foldl specStep t ops := by
  induction ops with
  | nil => intro s t h x; simpa using h x
  | cons op rest ih =>
      intro s t h x
      simp only [List.foldl_cons]
      cases op with
      | observe a =>
          apply ih
          intro y
          by_cases ha : a ∈ s
          · simp only [dedupStep, observe, if_pos ha, specStep, List.mem_cons]
            constructor
            · intro hy
              exact Or.inr ((h y).1 hy)
            · rintro (rfl | hy)
              · exact ha
              · exact (h y).2 hy
          · simp only [dedupStep, observe, if_neg ha, specStep, List.mem_cons]
            exact or_congr Iff.rfl (h y)
      | reset =>
          apply ih
          intro y
          simp [dedupStep, specStep]

/-- The decoder on an explicit Ethernet header dispatches on the ethertype
and hands the payload to the matching slicer. -/
theorem extract_dest_ip_cons (h l : Nat) (payload : List Nat) :
    extract_dest_ip (0 :: 0 :: 0 :: 0 :: 0 :: 0 :: 0 :: 0 :: 0 :: 0 :: 0 :: 0 ::
        h :: l :: payload) =
      (if h * 256 + l = 0x0800 then (parseIpv4Dest payload).map IpAddr.v4
       else if h * 256 + l = 0x86DD then (parseIpv6Dest payload).map IpAddr.v6
       else none) := by
  simp only [extract_dest_ip]
  rw [if_pos (by simp)]
  have h12 : (0 :: 0 :: 0 :: 0 :: 0 :: 0 :: 0 :: 0 :: 0 :: 0 :: 0 :: 0 ::
      h :: l :: payload).getD 12 0 = h := rfl
  have h13 : (0 :: 0 :: 0 :: 0 :: 0 :: 0 :: 0 :: 0 :: 0 :: 0 :: 0 :: 0 ::
      h :: l :: payload).getD 13 0 = l := rfl
  have hdrop : (0 :: 0 :: 0 :: 0 :: 0 :: 0 :: 0 :: 0 :: 0 :: 0 :: 0 :: 0 ::
      h :: l :: payload).drop 14 = payload := rfl
  rw [h12, h13, hdrop]

/-- A well-formed IPv4 header slices to its destination address. -/
theorem parse4_header (proto : Nat) (src dst : Ipv4Addr) :
    parseIpv4Dest (mkIpv4Header proto src dst) = some dst := by
  simp [parseIpv4Dest, mkIpv4Header]

/-- A well-formed IPv6 header slices to its destination address. -/
theorem parse6_header (nh : Nat) (src dst : List Nat)
    (hsrc : src.length = 16) (hdst : dst.length = 16) :
    parseIpv6Dest (mkIpv6Header nh src dst) = some dst := by
  have hdrop : (src ++ dst).drop 16 = dst := by
    have h := List.drop_left src dst
    rwa [hsrc] at h
  have htake : dst.take 16 = dst := by
    have h := List.take_length dst
    rwa [hdst] at h
  simp [mkIpv6Header, parseIpv6Dest, hsrc, hdst, hdrop, htake]

/-- Round trip for IPv4: a well-formed Ethernet frame carrying an IPv4
header is decoded to the header destination. -/
theorem extract_v4_roundtrip (proto : Nat) (src dst : Ipv4Addr) :
    extract_dest_ip (mkEthFrame 0x0800 (mkIpv4Header proto src dst)) = some (.v4 dst) := by
  have hcons : mkEthFrame 0x0800 (mkIpv4Header proto src dst) =
      0 :: 0 :: 0 :: 0 :: 0 :: 0 :: 0 :: 0 :: 0 :: 0 :: 0 :: 0 :: 8 :: 0 ::
      mkIpv4Header proto src dst := rfl
  rw [hcons, extract_dest_ip_cons]
  norm_num [parse4_header]

/-- Round trip for IPv6: a well-formed Ethernet frame carrying an IPv6
header is decoded to the header destination. -/
theorem extract_v6_roundtrip (nh : Nat) (src dst : List Nat)
    (hsrc : src.length = 16) (hdst : dst.length = 16) :
    extract_dest_ip (mkEthFrame 0x86DD (mkIpv6Header nh src dst)) = some (.v6 dst) := by
  have hcons : mkEthFrame 0x86DD (mkIpv6Header nh src dst) =
      0 :: 0 :: 0 :: 0 :: 0 :: 0 :: 0 :: 0 :: 0 :: 0 :: 0 :: 0 :: 134 :: 221 ::
      mkIpv6Header nh src dst := rfl
  rw [hcons, extract_dest_ip_cons]
  norm_num [parse6_header nh src dst hsrc hdst]

/-- Inputs shorter than an Ethernet header decode to nothing. -/
theorem extract_short (data : List Nat) (h : data.length < 14) :
    extract_dest_ip data = none := by
  simp only [extract_dest_ip]
  rw [if_neg (by omega)]

/-- Frames whose ethertype is neither IPv4 nor IPv6 decode to nothing. -/
theorem extract_non_ip (et : Nat) (payload : List Nat)
    (h08 : et ≠ 0x0800) (h86 : et ≠ 0x86DD) :
    extract_dest_ip (mkEthFrame et payload) = none := by
  have hcons : mkEthFrame et payload =
      0 :: 0 :: 0 :: 0 :: 0 :: 0 :: 0 :: 0 :: 0 :: 0 :: 0 :: 0 ::
      (et / 256) :: (et % 256) :: payload := rfl
  have h1 : et / 256 * 256 + et % 256 = et := by omega
  rw [hcons, extract_dest_ip_cons, h1, if_neg h08, if_neg h86]

/-- A decoded destination can only come from a long-enough frame whose
ethertype is IPv4 or IPv6. -/
theorem extract_some_implies (data : List Nat) (a : IpAddr)
    (h : extract_dest_ip data = some a) :
    14 ≤ data.length ∧
      (data.getD 12 0 * 256 + data.getD 13 0 = 0x0800 ∨
       data.getD 12 0 * 256 + data.getD 13 0 = 0x86DD) := by
  simp only [extract_dest_ip] at h
  by_cases h14 : 14 ≤ data.length
  · refine ⟨h14, ?_⟩
    rw [if_pos h14] at h
    by_cases h1 : data.getD 12 0 * 256 + data.getD 13 0 = 2048
    · exact Or.inl h1
    · rw [if_neg h1] at h
      by_cases h2 : data.getD 12 0 * 256 + data.getD 13 0 = 34525
      · exact Or.inr h2
      · rw [if_neg h2] at h
        exact absurd h (by simp)
  · rw [if_neg h14] at h
    exact absurd h (by simp)

/-- C5: the frame decoder returns the destination network-layer address
exactly for Ethernet frames whose payload parses as IPv4 or IPv6 (headers
alone suffice), and returns nothing, without raising, for any other
protocol, truncated, or malformed input. -/
theorem extract_dest_ip_spec :
    (∀ proto src dst,
        extract_dest_ip (mkEthFrame 0x0800 (mkIpv4Header proto src dst)) = some (.v4 dst)) ∧
    (∀ nh src dst, src.length = 16 → dst.length = 16 →
        extract_dest_ip (mkEthFrame 0x86DD (mkIpv6Header nh src dst)) = some (.v6 dst)) ∧
    (∀ data, data.length < 14 → extract_dest_ip data = none) ∧
    (∀ et payload, et ≠ 0x0800 → et ≠ 0x86DD →
        extract_dest_ip (mkEthFrame et payload) = none) ∧
    (∀ data a, extract_dest_ip data = some a →
        14 ≤ data.length ∧
          (data.getD 12 0 * 256 + data.getD 13 0 = 0x0800 ∨
           data.getD 12 0 * 256 + data.getD 13 0 = 0x86DD)) :=
  ⟨extract_v4_roundtrip, extract_v6_roundtrip, extract_short, extract_non_ip,
   extract_some_implies⟩

/-- Witness for C5: a concrete IPv6 frame decodes to its destination, a
truncated input and an ARP frame decode to nothing. -/
theorem extract_dest_ip_spec_witness :
    extract_dest_ip (mkEthFrame 0x86DD (mkIpv6Header 6
        [1, 1, 1, 1, 1, 1, 1, 1, 1, 1, 1, 1, 1, 1, 1, 1]
        [32, 1, 0, 0, 0, 0, 0, 0, 0, 0, 0, 0, 0, 0, 0, 104])) =
      some (.v6 [32, 1, 0, 0, 0, 0, 0, 0, 0, 0, 0, 0, 0, 0, 0, 104]) ∧
    extract_dest_ip [0, 1, 2] = none ∧
    extract_dest_ip (mkEthFrame 0x0806 [0, 1]) = none :=
  ⟨extract_dest_ip_spec.2.1 6
      [1, 1, 1, 1, 1, 1, 1, 1, 1, 1, 1, 1, 1, 1, 1, 1]
      [32, 1, 0, 0, 0, 0, 0, 0, 0, 0, 0, 0, 0, 0, 0, 104] rfl rfl,
   extract_dest_ip_spec.2.2.1 [0, 1, 2] (by norm_num),
   extract_dest_ip_spec.2.2.2.1 0x0806 [0, 1] (by norm_num) (by norm_num)⟩

/-- C2: observe returns true on the first call for an address after session
start or after a reset (i.e. exactly when the address was not observed
since the last reset) and false otherwise, and running the operations after
a reset is the same as running them on a freshly created set. -/
theorem observe_true_iff_first_since_reset :
    ∀ (ops : List DedupOp) (a : String),
      ((observe (seenAfter ops) a).1 = true ↔ a ∉ observedSinceReset ops) ∧
      (∀ more, seenAfter (ops ++ DedupOp.reset :: more) = seenAfter more) := by
  intro ops a
  constructor
  · rw [observe_fst_eq]
    exact not_congr (mem_foldl_dedup_spec ops [] [] (fun _ => Iff.rfl) a)
  · intro more
    simp [seenAfter, List.foldl_append, dedupStep]

/-- Skipping a non-matching head row does not change the enriched check. -/
theorem has_geo_info_cons_ne (k : String) (r : DbRecord) (rest : Db) (i : String)
    (h : ¬ k = i) :
    has_geo_info ((k, r) :: rest) i = has_geo_info rest i := by
  simp [has_geo_info, assocFind, h]

/-- Skipping a non-matching head row does not change the enrichment
columns read back. -/
theorem geoFields_cons_ne (k : String) (r : DbRecord) (rest : Db) (i : String)
    (h : ¬ k = i) :
    geoFields ((k, r) :: rest) i = geoFields rest i := by
  simp [geoFields, assocFind, h]

/-- An upsert never changes whether an address counts as enriched: the
insert arm leaves the country code absent and the conflict arm only bumps
the count and refreshes last-seen. -/
theorem has_geo_info_upsert (db : Db) (j now i : String) :
    has_geo_info (upsert_connection db j now) i = has_geo_info db i := by
  induction db with
  | nil =>
      by_cases h : j = i
      · subst h
        simp [upsert_connection, has_geo_info, assocFind, freshRecord]
      · simp [upsert_connection, has_geo_info, assocFind, h]
  | cons p rest ih =>
      obtain ⟨k, r⟩ := p
      by_cases hkj : k = j
      · subst hkj
        by_cases hki : k = i
        · subst hki
          simp [upsert_connection, has_geo_info, assocFind]
        · simp [upsert_connection, has_geo_info, assocFind, hki]
      · simp only [upsert_connection, if_neg hkj]
        by_cases hki : k = i
        · subst hki
          simp [has_geo_info, assocFind]
        · rw [has_geo_info_cons_ne k r _ i hki, has_geo_info_cons_ne k r rest i hki]
          exact ih

/-- An upsert leaves the enrichment columns of an already-enriched address
untouched. -/
theorem geoFields_upsert_of_geo (db : Db) (j now i : String)
    (h : has_geo_info db i = true) :
    geoFields (upsert_connection db j now) i = geoFields db i := by
  induction db with
  | nil => simp [has_geo_info, assocFind] at h
  | cons p rest ih =>
      obtain ⟨k, r⟩ := p
      by_cases hkj : k = j
      · subst hkj
        by_cases hki : k = i
        · subst hki
          simp [upsert_connection, geoFields, assocFind]
        · simp [upsert_connection, geoFields, assocFind, hki]
      · simp only [upsert_connection, if_neg hkj]
        by_cases hki : k = i
        · subst hki
          simp [geoFields, assocFind]
        · rw [geoFields_cons_ne k r _ i hki, geoFields_cons_ne k r rest i hki]
          rw [has_geo_info_cons_ne k r rest i hki] at h
          exact ih h

/-- A geo write for one address leaves every other address's enrichment
columns untouched. -/
theorem geoFields_update_ne (db : Db) (j i : String)
    (a b c d e f g : Option String) (hij : j ≠ i) :
    geoFields (update_geo_info db j a b c d e f g) i = geoFields db i := by
  induction db with
  | nil => simp [update_geo_info]
  | cons p rest ih =>
      obtain ⟨k, r⟩ := p
      by_cases hkj : k = j
      · subst hkj
        have hki : ¬ k = i := fun hk => hij (hk ▸ rfl)
        simp [update_geo_info, geoFields, assocFind, hki]
      · simp only [update_geo_info, if_neg hkj]
        by_cases hki : k = i
        · subst hki
          simp [geoFields, assocFind]
        · rw [geoFields_cons_ne k r _ i hki, geoFields_cons_ne k r rest i hki]
          exact ih

/-- A geo write whose country-code field is absent or empty leaves the
address unenriched in the store's eyes. -/
theorem has_geo_info_update_bad (db : Db) (ip : String)
    (a b c cc e f g : Option String) (hcc : cc = none ∨ cc = some "") :
    has_geo_info (update_geo_info db ip a b c cc e f g) ip = false := by
  induction db with
  | nil => simp [update_geo_info, has_geo_info, assocFind]
  | cons p rest ih =>
      obtain ⟨k, r⟩ := p
      by_cases hk : k = ip
      · subst hk
        rcases hcc with h | h <;>
          simp [update_geo_info, has_geo_info, assocFind, h]
      · simp only [update_geo_info, if_neg hk]
        rw [has_geo_info_cons_ne k r _ ip hk]
        exact ih

/-- The already-enriched check holds exactly for a stored record with a
non-null, non-empty country code. -/
theorem has_geo_info_iff (db : Db) (ip : String) :
    has_geo_info db ip = true ↔
      ∃ rec, assocFind db ip = some rec ∧
        ∃ cc, rec.country_code = some cc ∧ cc ≠ "" := by
  unfold has_geo_info
  cases hfind : assocFind db ip with
  | none => simp
  | some r =>
      cases hcc : r.country_code with
      | none => simp [hcc]
      | some cc => by_cases h : cc = "" <;> simp [hcc, h]

/-- C8: whenever the already-enriched check holds as the enrichment task
runs, the task performs no remote lookup for that address. -/
theorem no_remote_lookup_when_enriched (db : Db) (ip : String)
    (r : Except String IpInfoResponse) (h : has_geo_info db ip = true) :
    countRemoteLookups (enrichmentTask db ip r).2 ip = 0 := by
  simp [enrichmentTask, h, countRemoteLookups]

/-- Witness for C8 on a store that already has a country code for
8.8.8.8. -/
theorem no_remote_lookup_when_enriched_witness :
    countRemoteLookups
      (enrichmentTask [("8.8.8.8", enrichedRecord)] "8.8.8.8"
        (Except.error "lookup should not run")).2 "8.8.8.8" = 0 :=
  no_remote_lookup_when_enriched [("8.8.8.8", enrichedRecord)] "8.8.8.8"
    (Except.error "lookup should not run") rfl

/-- C10: the already-enriched check holds only for a stored record with a
non-null non-empty country code; a geo write whose country code is absent
or empty never marks the address enriched, and the next enrichment task for
it performs the remote lookup again. -/
theorem empty_country_never_marks_enriched (db : Db) (ip : String)
    (info : IpInfoResponse) (r : Except String IpInfoResponse)
    (hcc : info.country_code = none ∨ info.country_code = some "") :
    (∀ d : Db, has_geo_info d ip = true ↔
        ∃ rec, assocFind d ip = some rec ∧
          ∃ cc, rec.country_code = some cc ∧ cc ≠ "") ∧
    has_geo_info (update_geo_info db ip info.asn info.as_name info.as_domain
        info.country_code info.country info.continent_code info.continent) ip = false ∧
    countRemoteLookups
      (enrichmentTask (update_geo_info db ip info.asn info.as_name info.as_domain
          info.country_code info.country info.continent_code info.continent) ip r).2
      ip = 1 := by
  have hbad := has_geo_info_update_bad db ip info.asn info.as_name info.as_domain
    info.country_code info.country info.continent_code info.continent hcc
  refine ⟨fun d => has_geo_info_iff d ip, hbad, ?_⟩
  cases r with
  | ok i2 => simp [enrichmentTask, hbad, countRemoteLookups]
  | error e => simp [enrichmentTask, hbad, countRemoteLookups]

/-- Witness for C10: writing an all-empty enrichment result for 9.9.9.9
leaves it unenriched and the next task still performs the lookup. -/
theorem empty_country_never_marks_enriched_witness :
    has_geo_info (update_geo_info [("9.9.9.9", asnOnlyRecord)] "9.9.9.9"
        emptyInfo.asn emptyInfo.as_name emptyInfo.as_domain emptyInfo.country_code
        emptyInfo.country emptyInfo.continent_code emptyInfo.continent) "9.9.9.9" = false ∧
    countRemoteLookups
      (enrichmentTask (update_geo_info [("9.9.9.9", asnOnlyRecord)] "9.9.9.9"
          emptyInfo.asn emptyInfo.as_name emptyInfo.as_domain emptyInfo.country_code
          emptyInfo.country emptyInfo.continent_code emptyInfo.continent) "9.9.9.9"
        (Except.error "down")).2 "9.9.9.9" = 1 :=
  ⟨(empty_country_never_marks_enriched [("9.9.9.9", asnOnlyRecord)] "9.9.9.9"
      emptyInfo (Except.error "down") (Or.inl rfl)).2.1,
   (empty_country_never_marks_enriched [("9.9.9.9", asnOnlyRecord)] "9.9.9.9"
      emptyInfo (Except.error "down") (Or.inl rfl)).2.2⟩

/-- Counterexample to C7 as stated: a record whose AS number is populated
but whose country code is absent is overwritten by a later enrichment write
issued by the core, losing the populated AS number. -/
theorem enrichment_overwrite_counterexample :
    (geoFields [("1.1.1.1", asnOnlyRecord)] "1.1.1.1").map (fun t => t.1) =
      some (some "AS13335") ∧
    (geoFields (enrichmentTask [("1.1.1.1", asnOnlyRecord)] "1.1.1.1"
        (Except.ok emptyInfo)).1 "1.1.1.1").map (fun t => t.1) = some none := by
  refine ⟨rfl, ?_⟩
  rfl

/-- C7 (amended): once the country code of an address is populated, the
core's per-address pipeline step (upsert plus enrichment task, for any
address and any outcome) never changes that address's enrichment fields. -/
theorem geo_fields_stable_once_enriched (db : Db) (ip ip2 now : String)
    (upsertOk : Bool) (r : Except String IpInfoResponse)
    (h : has_geo_info db ip = true) :
    geoFields (onNewIp db ip2 now upsertOk r).1 ip = geoFields db ip := by
  cases upsertOk with
  | false => simp [onNewIp]
  | true =>
      simp only [onNewIp, if_true]
      have hup : geoFields (upsert_connection db ip2 now) ip = geoFields db ip :=
        geoFields_upsert_of_geo db ip2 now ip h
      by_cases hip : ip2 = ip
      · subst hip
        have hg : has_geo_info (upsert_connection db ip2 now) ip2 = true := by
          rw [has_geo_info_upsert]; exact h
        simp [enrichmentTask, hg, hup]
      · cases hg : has_geo_info (upsert_connection db ip2 now) ip2 with
        | true => simp [enrichmentTask, hg, hup]
        | false =>
            cases r with
            | error e => simp [enrichmentTask, hg, hup]
            | ok info =>
                simp only [enrichmentTask, hg, Bool.false_eq_true, if_false]
                rw [geoFields_update_ne (upsert_connection db ip2 now) ip2 ip
                  info.asn info.as_name info.as_domain info.country_code info.country
                  info.continent_code info.continent hip]
                exact hup

/-- Witness for C7 (amended) on an enriched record for 8.8.8.8. -/
theorem geo_fields_stable_once_enriched_witness :
    geoFields (onNewIp [("8.8.8.8", enrichedRecord)] "8.8.8.8" "t2" true
        (Except.ok emptyInfo)).1 "8.8.8.8" =
      geoFields [("8.8.8.8", enrichedRecord)] "8.8.8.8" :=
  geo_fields_stable_once_enriched [("8.8.8.8", enrichedRecord)] "8.8.8.8" "8.8.8.8"
    "t2" true (Except.ok emptyInfo) rfl

/-- Counterexample to C1 as stated: when the already-enriched check holds
as the task runs (the lookup is skipped), the pipeline emits no new-ip
notification at all for the newly-seen address, not exactly one. -/
theorem skip_path_emits_nothing :
    has_geo_info [("8.8.8.8", enrichedRecord)] "8.8.8.8" = true ∧
    countEmits (onNewIp [("8.8.8.8", enrichedRecord)] "8.8.8.8" "t1" true
        (Except.ok usInfo)).2 "8.8.8.8" = 0 := by
  refine ⟨rfl, ?_⟩
  rfl

/-- C1 (amended): for a newly-seen address whose upsert succeeds and whose
already-enriched check is false when the task runs, the pipeline issues
exactly one upsert call and exactly one notification, whether the lookup
succeeds or fails; and even when the upsert fails it is still issued
exactly once (with no notification then). -/
theorem one_upsert_one_emit_when_not_enriched (db : Db) (ip now : String)
    (r : Except String IpInfoResponse) (h : has_geo_info db ip = false) :
    countUpserts (onNewIp db ip now true r).2 ip = 1 ∧
    countEmits (onNewIp db ip now true r).2 ip = 1 ∧
    countUpserts (onNewIp db ip now false r).2 ip = 1 ∧
    countEmits (onNewIp db ip now false r).2 ip = 0 := by
  have hafter : has_geo_info (upsert_connection db ip now) ip = false := by
    rw [has_geo_info_upsert]
    exact h
  cases r with
  | ok info =>
      refine ⟨?_, ?_, ?_, ?_⟩ <;>
        simp [onNewIp, enrichmentTask, hafter, countUpserts, countEmits]
  | error e =>
      refine ⟨?_, ?_, ?_, ?_⟩ <;>
        simp [onNewIp, enrichmentTask, hafter, countUpserts, countEmits]

/-- Witness for C1 (amended) on an empty store with a failing lookup. -/
theorem one_upsert_one_emit_when_not_enriched_witness :
    countUpserts (onNewIp [] "8.8.8.8" "t0" true (Except.error "down")).2 "8.8.8.8" = 1 ∧
    countEmits (onNewIp [] "8.8.8.8" "t0" true (Except.error "down")).2 "8.8.8.8" = 1 ∧
    countUpserts (onNewIp [] "8.8.8.8" "t0" false (Except.error "down")).2 "8.8.8.8" = 1 ∧
    countEmits (onNewIp [] "8.8.8.8" "t0" false (Except.error "down")).2 "8.8.8.8" = 0 :=
  one_upsert_one_emit_when_not_enriched [] "8.8.8.8" "t0" (Except.error "down") rfl

/-- A successful lookup leaves the result in the cache under the address
key. -/
theorem lookup_ok_cache (st st2 : GeoState) (remote : String → RemoteOutcome)
    (ip : String) (info : IpInfoResponse) (called : Bool)
    (h : lookup st remote ip = (Except.ok info, st2, called)) :
    assocFind st2.cache ip = some info := by
  unfold lookup at h
  split at h
  · rename_i cached hc
    simp only [Prod.mk.injEq] at h
    obtain ⟨h1, h2, h3⟩ := h
    obtain rfl : cached = info := by simpa using h1
    subst h2
    exact hc
  · split at h
    · simp at h
    · split at h
      · rename_i info2 hr
        simp only [Prod.mk.injEq] at h
        obtain ⟨h1, h2, h3⟩ := h
        obtain rfl : info2 = info := by simpa using h1
        subst h2
        simp [assocFind]
      · simp at h
      · simp at h
      · simp at h

/-- C9: after a successful lookup, the result is cached and every later
lookup for the same address returns that result with no remote request and
no state change, whatever the network would now answer. -/
theorem lookup_caches_and_replays (st st2 : GeoState)
    (remote remote2 : String → RemoteOutcome) (ip : String)
    (info : IpInfoResponse) (called : Bool)
    (h : lookup st remote ip = (Except.ok info, st2, called)) :
    lookup st2 remote2 ip = (Except.ok info, st2, false) := by
  have hc := lookup_ok_cache st st2 remote ip info called h
  unfold lookup
  rw [hc]

/-- Witness for C9: a fresh successful lookup for 8.8.8.8, then a replay
while the network is down. -/
theorem lookup_caches_and_replays_witness :
    lookup ⟨"tok", [("8.8.8.8", usInfo)]⟩
        (fun _ => RemoteOutcome.transportError "down") "8.8.8.8" =
      (Except.ok usInfo, ⟨"tok", [("8.8.8.8", usInfo)]⟩, false) :=
  lookup_caches_and_replays ⟨"tok", []⟩ ⟨"tok", [("8.8.8.8", usInfo)]⟩
    (fun _ => RemoteOutcome.ok usInfo) (fun _ => RemoteOutcome.transportError "down")
    "8.8.8.8" usInfo true rfl

/-- Counterexample to C3 as stated: with the device open succeeding and the
kernel-filter apply failing, start still returns ok, the capture loop still
runs (it decodes a frame and reports 8.8.8.8) and the state becomes
running, instead of an error with the state left idle. -/
theorem filter_failure_still_runs :
    startSession ⟨false, []⟩ true false [exFrameTo8888] =
      (Except.ok (), ⟨true, ["8.8.8.8"]⟩, ["8.8.8.8"]) := by
  rfl

/-- C3 (amended): if opening the capture device fails, start returns
DeviceUnavailable, the capture loop never runs, and the state, running flag
included, is unchanged; a filter-apply failure, by contrast, is only
logged. -/
theorem start_device_unavailable (st : SnifferState) (filterOk : Bool)
    (packets : List (List Nat)) (h : st.running = false) :
    startSession st false filterOk packets =
      (Except.error StartError.deviceUnavailable, st, []) ∧
    is_running st = false := by
  constructor
  · simp [startSession, h]
  · exact h

/-- Witness for C3 (amended) from the idle state. -/
theorem start_device_unavailable_witness :
    startSession ⟨false, ["10.0.0.1"]⟩ false true [exFrameTo8888] =
      (Except.error StartError.deviceUnavailable, ⟨false, ["10.0.0.1"]⟩, []) ∧
    is_running ⟨false, ["10.0.0.1"]⟩ = false :=
  start_device_unavailable ⟨false, ["10.0.0.1"]⟩ true [exFrameTo8888] rfl

/-- C6: calling start while a session is running fails with AlreadyRunning,
changes nothing, and leaves the running flag true. -/
theorem start_already_running (st : SnifferState) (openOk filterOk : Bool)
    (packets : List (List Nat)) (h : is_running st = true) :
    startSession st openOk filterOk packets =
      (Except.error StartError.alreadyRunning, st, []) ∧
    is_running (startSession st openOk filterOk packets).2.1 = true := by
  have h1 : startSession st openOk filterOk packets =
      (Except.error StartError.alreadyRunning, st, []) := by
    simp [startSession, is_running] at h ⊢
    simp [h]
  refine ⟨h1, ?_⟩
  rw [h1]
  exact h

/-- Witness for C6 while a session is active and frames keep arriving. -/
theorem start_already_running_witness :
    startSession ⟨true, []⟩ true true [exFrameTo8888] =
      (Except.error StartError.alreadyRunning, ⟨true, []⟩, []) ∧
    is_running ((startSession ⟨true, []⟩ true true [exFrameTo8888]).2.1) = true :=
  start_already_running ⟨true, []⟩ true true [exFrameTo8888] rfl

end Snifff
